import Mathlib

/-!
Shallow embedding of the rast-dap debug-adapter core (src/state.rs,
src/command_handler.rs, src/main.rs, src/utils.rs) and proofs of the
specification claims about it.

Modelling conventions:
* Machine integers (`i64`, sequence numbers, line/column numbers) are `Int`;
  `u16` values are `Nat` with an explicit `< 65536` bound in the parser.
* `HashMap<String, Vec<i64>>` is modelled as the function
  `String → Option (List Int)`; `HashMap::insert` is pointwise update,
  which is exactly its observable semantics.
* The `dap` crate's wire types are reproduced field by field as far as this
  repository populates or inspects them.  Fields of `dap::types::Source`
  other than `name` and `path` are never set to anything but `None` and never
  read by this code, so they are elided.
* Diagnostic logging (`dap_log`, which fires `Event::Output` and discards the
  result) is outside the modelled protocol surface: the specification places
  logging/diagnostics output out of scope, and the response/event contracts it
  states are about the protocol-level emissions (`respond` / `send_event` of
  the handler contract).
* Handler bodies are expressed as scripts of atomic steps (emit an output /
  mutate the session state) executed by `runScript`.  A write failure on the
  transport is modelled by an optional index of the first failing emission:
  Rust's `?` on `respond`/`send_event` aborts the rest of the handler, which
  `runScript` mirrors by stopping at the failing emission with an error flag.
-/

namespace RastDap

/-- Rust `dap::types::Source` as used by this repository: only `name` and `path`
are ever populated or inspected (all other fields are always `None`). -/
structure Source where
  name : Option String
  path : Option String
  deriving DecidableEq, Repr

/-- Rust `dap::types::SourceBreakpoint`: the handlers read only `line` and
`column`. -/
structure SourceBreakpoint where
  line : Int
  column : Option Int
  deriving DecidableEq, Repr

/-- Rust `dap::types::Breakpoint`, every field the code constructs. -/
structure Breakpoint where
  id : Option Int
  verified : Bool
  message : Option String
  source : Option Source
  line : Option Int
  column : Option Int
  end_line : Option Int
  end_column : Option Int
  instruction_reference : Option String
  offset : Option Int
  deriving DecidableEq, Repr

/-- Rust `dap::types::Capabilities`, restricted to the flags this repository sets
explicitly; every remaining flag of the crate's struct is left at its
`Default` (`None`, i.e. unsupported) by the code and never read. -/
structure Capabilities where
  supports_configuration_done_request : Option Bool := none
  supports_set_variable : Option Bool := none
  supports_step_back : Option Bool := none
  supports_restart_frame : Option Bool := none
  supports_goto_targets_request : Option Bool := none
  supports_conditional_breakpoints : Option Bool := none
  supports_hit_conditional_breakpoints : Option Bool := none
  supports_terminate_request : Option Bool := none
  supports_evaluate_for_hovers : Option Bool := none
  deriving DecidableEq, Repr

/-- Rust `dap::types::Thread`. -/
structure Thread where
  id : Int
  name : String
  deriving DecidableEq, Repr

/-- Rust `dap::types::StackFrame`, every field the code constructs
(`module_id` is never anything but `None` in this code). -/
structure StackFrame where
  id : Int
  name : String
  source : Option Source
  line : Int
  column : Int
  end_line : Option Int
  end_column : Option Int
  can_restart : Option Bool
  instruction_pointer_reference : Option String
  module_id : Option Int
  presentation_hint : Option String
  deriving DecidableEq, Repr

/-- Rust `dap::types::Scope`, every field the code constructs. -/
structure Scope where
  name : String
  presentation_hint : Option String
  variables_reference : Int
  named_variables : Option Int
  indexed_variables : Option Int
  expensive : Bool
  source : Option Source
  line : Option Int
  column : Option Int
  end_line : Option Int
  end_column : Option Int
  deriving DecidableEq, Repr

/-- Rust `dap::types::Variable`, every field the code constructs. -/
structure Variable where
  name : String
  value : String
  type_field : Option String
  presentation_hint : Option String
  evaluate_name : Option String
  variables_reference : Int
  named_variables : Option Int
  indexed_variables : Option Int
  memory_reference : Option String
  deriving DecidableEq, Repr

/-- Rust `dap::types::StoppedEventReason`: only `Pause` is used here. -/
inductive StoppedEventReason where
  | Pause
  deriving DecidableEq, Repr

/-- Rust `dap::events::StoppedEventBody`. -/
structure StoppedEventBody where
  reason : StoppedEventReason
  description : Option String
  thread_id : Option Int
  preserve_focus_hint : Option Bool
  text : Option String
  all_threads_stopped : Option Bool
  hit_breakpoint_ids : Option (List Int)
  deriving DecidableEq, Repr

/-- Rust `dap::events::ContinuedEventBody`. -/
structure ContinuedEventBody where
  thread_id : Int
  all_threads_continued : Option Bool
  deriving DecidableEq, Repr

/-- The protocol-level events this code emits (`Event::Output` diagnostics are
out of the modelled surface, see the module comment). -/
inductive EventOut where
  | Initialized
  | Stopped (body : StoppedEventBody)
  | Continued (body : ContinuedEventBody)
  deriving DecidableEq, Repr

/-- Rust `dap::responses::ContinueResponse`. -/
structure ContinueResponse where
  all_threads_continued : Option Bool
  deriving DecidableEq, Repr

/-- Rust `dap::responses::ResponseBody`, restricted to the bodies this code
builds. -/
inductive ResponseBody where
  | Initialize (caps : Capabilities)
  | Launch
  | Restart
  | Attach
  | ConfigurationDone
  | SetBreakpoints (breakpoints : List Breakpoint)
  | SetExceptionBreakpoints
  | Threads (threads : List Thread)
  | Pause
  | Continue (body : ContinueResponse)
  | StackTrace (stack_frames : List StackFrame) (total_frames : Option Int)
  | Scopes (scopes : List Scope)
  | Variables (vars : List Variable)
  | Disconnect
  deriving DecidableEq, Repr

/-- Rust `dap::responses::ResponseMessage`. -/
inductive ResponseMessage where
  | Cancelled
  | Error (s : String)
  deriving DecidableEq, Repr

/-- Rust `dap::responses::Response`. -/
structure Response where
  request_seq : Int
  success : Bool
  message : Option ResponseMessage
  body : Option ResponseBody
  error : Option String
  deriving DecidableEq, Repr

/-- One protocol-level emission onto the transport. -/
inductive Output where
  | response (r : Response)
  | event (e : EventOut)
  deriving DecidableEq, Repr

/-- Is this emission a response? -/
def Output.isResponse : Output → Bool
  | .response _ => true
  | .event _ => false

/-- Minimal JSON values, for the opaque `additional_data` launch payload
(`serde_json::Value`). -/
inductive Json where
  | null
  | bool (b : Bool)
  | num (n : Int)
  | str (s : String)
  | arr (elems : List Json)
  | obj (fields : List (String × Json))

/-- Rust `serde_json::Value::get(key)`: key lookup on an object, `None` on any
other value kind. -/
def Json.get? : Json → String → Option Json
  | .obj fields, key => fields.lookup key
  | _, _ => none

/-- Rust `serde_json::Value::as_array`. -/
def Json.asArray : Json → Option (List Json)
  | .arr elems => some elems
  | _ => none

/-- Rust `serde_json::Value::as_str`. -/
def Json.asStr : Json → Option String
  | .str s => some s
  | _ => none

/-- Rust `str::parse::<u16>()`: an optional leading `+`, then one or more ASCII
digits, value below `2^16`; anything else (empty digits, other characters,
overflow) is a parse error, i.e. `none`. -/
def parseU16 (s : String) : Option Nat :=
  let ds := match s.data with
    | '+' :: rest => rest
    | cs => cs
  if ds = [] then none
  else if ds.all Char.isDigit then
    let n := ds.foldl (fun acc c => acc * 10 + (c.toNat - '0'.toNat)) 0
    if n < 65536 then some n else none
  else none

/-- Rust `dap::requests::LaunchRequestArguments`: only `additional_data` is
inspected. -/
structure LaunchRequestArguments where
  additional_data : Option Json

/-- Rust `src/utils.rs: extract_port_from_args`. -/
def extract_port_from_args (args : LaunchRequestArguments) : Option Nat :=
  let additional_data := args.additional_data.getD (Json.obj [])
  match (additional_data.get? "args").bind Json.asArray with
  | some argsArr =>
    -- `args.len() >= 2` plus indexing `args[0]`, `args[1]`
    match argsArr with
    | arg0 :: arg1 :: _ =>
      match arg0.asStr with
      | some s0 =>
        if s0 = "--port" then
          match arg1.asStr with
          | some port_str =>
            match parseU16 port_str with
            | some port => some port
            | none => none
          | none => none
        else none
      | none => none
    | _ => none
  | none => none

/-- Rust `dap::requests::SetBreakpointsArguments`: the handlers read `source` and
`breakpoints` only. -/
structure SetBreakpointsArguments where
  source : Source
  breakpoints : Option (List SourceBreakpoint)
  deriving DecidableEq, Repr

/-- Rust `dap::requests::Command`, with argument payloads the handlers never
inspect elided; `Other tag` stands for the remaining crate variants (outside
the supported set), `tag` being the `Debug` rendering the code interpolates
into its error message. -/
inductive Command where
  | Initialize
  | Launch (args : LaunchRequestArguments)
  | Restart
  | Attach
  | ConfigurationDone
  | SetBreakpoints (args : SetBreakpointsArguments)
  | SetExceptionBreakpoints
  | Threads
  | Pause
  | Continue
  | StackTrace
  | Scopes
  | Variables
  | Disconnect
  | Other (tag : String)

/-- Rust `dap::requests::Request`: sequence number plus command. -/
structure Request where
  seq : Int
  command : Command

/-- Rust `Request::success(body)` of the `dap` crate: a success response echoing
the request's sequence number. -/
def Request.success (req : Request) (body : ResponseBody) : Response :=
  { request_seq := req.seq, success := true, message := none,
    body := some body, error := none }

/-- Rust `src/state.rs: DapState`.  The `HashMap` is modelled as a lookup
function. -/
structure DapState where
  main_thread_id : Int
  current_source : Option Source
  stopped_line : Int
  stopped_column : Int
  breakpoints_by_path : String → Option (List Int)
  vars_ref : Int

/-- Rust `DapState::new`. -/
def DapState.new : DapState :=
  { main_thread_id := 1
    current_source := none
    stopped_line := 1
    stopped_column := 1
    breakpoints_by_path := fun _ => none
    vars_ref := 2000 }

/-- Rust `HashMap::insert` on the lookup-function model: pointwise update. -/
def mapInsert (m : String → Option (List Int)) (p : String) (lines : List Int) :
    String → Option (List Int) :=
  fun q => if q = p then some lines else m q

/-- Rust `src/state.rs: DapState::pick_stop_location`. -/
def DapState.pick_stop_location (st : DapState) : DapState :=
  match st.current_source with
  | some src =>
    match src.path with
    | some path =>
      match st.breakpoints_by_path path with
      | some lines =>
        match lines with
        | first :: _ =>
          { st with stopped_line := first, stopped_column := 1 }
        | [] => { st with stopped_line := 1, stopped_column := 1 }
      | none => { st with stopped_line := 1, stopped_column := 1 }
    | none => { st with stopped_line := 1, stopped_column := 1 }
  | none => { st with stopped_line := 1, stopped_column := 1 }

/-- One atomic step of a handler body: emit a protocol output (a `respond` or
`send_event` call, each of which can fail on the transport) or mutate the
session state. -/
inductive Step where
  | emit (f : DapState → Output)
  | mutate (f : DapState → DapState)

/-- Run a handler script.  `failAt = some k` injects a transport write
failure at the k-th emission (0-based): the failing write delivers nothing,
the `?` operator aborts the remaining steps, and the error flag (third
component) records that the handler call returned `Err`. -/
def runScript : List Step → DapState → Option Nat → DapState × List Output × Bool
  | [], st, _ => (st, [], false)
  | Step.mutate f :: rest, st, failAt => runScript rest (f st) failAt
  | Step.emit f :: rest, st, failAt =>
    match failAt with
    | some 0 => (st, [], true)
    | some (k + 1) =>
      let r := runScript rest st (some k)
      (r.1, f st :: r.2.1, r.2.2)
    | none =>
      let r := runScript rest st none
      (r.1, f st :: r.2.1, r.2.2)

/-- Number of emissions (transport writes) in a script. -/
def emitCount : List Step → Nat
  | [] => 0
  | Step.emit _ :: rest => emitCount rest + 1
  | Step.mutate _ :: rest => emitCount rest

/-- The capability set built by `handle_initialize` in
src/command_handler.rs: everything explicitly `false` except
configuration-done support, all remaining crate flags left at their
defaults. -/
def initializeCaps : Capabilities :=
  { supports_configuration_done_request := some true
    supports_set_variable := some false
    supports_step_back := some false
    supports_restart_frame := some false
    supports_goto_targets_request := some false
    supports_conditional_breakpoints := some false
    supports_hit_conditional_breakpoints := some false
    supports_terminate_request := some false
    supports_evaluate_for_hovers := some false }

/-- src/command_handler.rs: `handle_initialize` — respond with the
capability set, then send the `Initialized` event. -/
def handle_initialize (req : Request) : List Step :=
  [ Step.emit (fun _ => Output.response (req.success (ResponseBody.Initialize initializeCaps)))
  , Step.emit (fun _ => Output.event EventOut.Initialized) ]

/-- src/command_handler.rs: `handle_configuration_done`. -/
def handle_configuration_done (req : Request) : List Step :=
  [Step.emit (fun _ => Output.response (req.success ResponseBody.ConfigurationDone))]

/-- src/command_handler.rs: `handle_launch` — the extracted port is only
logged, then a single success response is sent. -/
def handle_launch (req : Request) (args : LaunchRequestArguments) : List Step :=
  let _port := extract_port_from_args args
  [Step.emit (fun _ => Output.response (req.success ResponseBody.Launch))]

/-- src/command_handler.rs: `handle_restart`. -/
def handle_restart (req : Request) : List Step :=
  [Step.emit (fun _ => Output.response (req.success ResponseBody.Restart))]

/-- src/command_handler.rs: `handle_attach`. -/
def handle_attach (req : Request) : List Step :=
  [Step.emit (fun _ => Output.response (req.success ResponseBody.Attach))]

/-- The `lines` vector built by `handle_set_breakpoints`: the requested line
of every submitted spec, in order (empty when `breakpoints` is absent). -/
def linesOf : Option (List SourceBreakpoint) → List Int
  | none => []
  | some sbs => sbs.map (·.line)

/-- The response list built by the `for (i, src_bp) in
source_breakpoints.iter().enumerate()` loop of `handle_set_breakpoints` (and,
identically, of the draft in src/main.rs), with `i` the running 0-based
index. -/
def mkBreakpoint (source : Source) (i : Nat) (src_bp : SourceBreakpoint) : Breakpoint :=
  { id := some ((i : Int) + 1)
    verified := true
    message := none
    source := some source
    line := some src_bp.line
    column := src_bp.column
    end_line := none
    end_column := none
    instruction_reference := none
    offset := none }

/-- The loop body applied down the list, `i` the running 0-based index. -/
def buildBreakpointsFrom (source : Source) (i : Nat) :
    List SourceBreakpoint → List Breakpoint
  | [] => []
  | src_bp :: rest => mkBreakpoint source i src_bp :: buildBreakpointsFrom source (i + 1) rest

/-- The full response breakpoint list (empty when no specs were
submitted). -/
def buildBreakpoints (source : Source) (bps : Option (List SourceBreakpoint)) :
    List Breakpoint :=
  match bps with
  | none => []
  | some sbs => buildBreakpointsFrom source 0 sbs

/-- src/command_handler.rs: `handle_set_breakpoints` — record the source,
replace the path's line list if the source has a path, then send exactly one
response enumerating the submitted specs. -/
def handle_set_breakpoints (req : Request) (args : SetBreakpointsArguments) : List Step :=
  [ Step.mutate (fun st => { st with current_source := some args.source })
  , Step.mutate (fun st =>
      match args.source.path with
      | some path =>
        { st with breakpoints_by_path :=
            mapInsert st.breakpoints_by_path path (linesOf args.breakpoints) }
      | none => st)
  , Step.emit (fun _ => Output.response (req.success
      (ResponseBody.SetBreakpoints (buildBreakpoints args.source args.breakpoints)))) ]

/-- src/command_handler.rs: `handle_set_exception_breakpoints`. -/
def handle_set_exception_breakpoints (req : Request) : List Step :=
  [Step.emit (fun _ => Output.response (req.success ResponseBody.SetExceptionBreakpoints))]

/-- src/command_handler.rs: `handle_threads`. -/
def handle_threads (req : Request) : List Step :=
  [Step.emit (fun st => Output.response (req.success
    (ResponseBody.Threads [{ id := st.main_thread_id, name := "Main Thread" }])))]

/-- src/command_handler.rs: `handle_pause` — respond, recompute the stop
location, then send the `Stopped` event. -/
def handle_pause (req : Request) : List Step :=
  [ Step.emit (fun _ => Output.response (req.success ResponseBody.Pause))
  , Step.mutate DapState.pick_stop_location
  , Step.emit (fun st => Output.event (EventOut.Stopped
      { reason := StoppedEventReason.Pause
        description := some "Paused"
        thread_id := some st.main_thread_id
        preserve_focus_hint := some false
        text := none
        all_threads_stopped := some true
        hit_breakpoint_ids := none })) ]

/-- src/command_handler.rs: `handle_continue` — respond, then send the
`Continued` event; no state mutation. -/
def handle_continue (req : Request) : List Step :=
  [ Step.emit (fun _ => Output.response (req.success
      (ResponseBody.Continue { all_threads_continued := some true })))
  , Step.emit (fun st => Output.event (EventOut.Continued
      { thread_id := st.main_thread_id, all_threads_continued := some true })) ]

/-- The placeholder source `handle_stack_trace` substitutes when no source
was ever set. -/
def unknownSource : Source :=
  { name := some "unknown", path := none }

/-- src/command_handler.rs: `handle_stack_trace` — one synthetic frame at the
stored stop location. -/
def handle_stack_trace (req : Request) : List Step :=
  [Step.emit (fun st => Output.response (req.success
    (ResponseBody.StackTrace
      [{ id := 1
         name := "main"
         source := some (st.current_source.getD unknownSource)
         line := st.stopped_line
         column := st.stopped_column
         end_line := none
         end_column := none
         can_restart := none
         instruction_pointer_reference := none
         module_id := none
         presentation_hint := none }]
      (some 1))))]

/-- src/command_handler.rs: `handle_scopes`. -/
def handle_scopes (req : Request) : List Step :=
  [Step.emit (fun st => Output.response (req.success
    (ResponseBody.Scopes
      [{ name := "Locals"
         presentation_hint := none
         variables_reference := st.vars_ref
         named_variables := none
         indexed_variables := none
         expensive := false
         source := none
         line := none
         column := none
         end_line := none
         end_column := none }])))]

/-- src/command_handler.rs: `handle_variables`. -/
def handle_variables (req : Request) : List Step :=
  [Step.emit (fun _ => Output.response (req.success
    (ResponseBody.Variables
      [{ name := "demo"
         value := "1"
         type_field := some "i32"
         presentation_hint := none
         evaluate_name := some "demo"
         variables_reference := 0
         named_variables := none
         indexed_variables := none
         memory_reference := none }])))]

/-- src/command_handler.rs: `handle_disconnect`. -/
def handle_disconnect (req : Request) : List Step :=
  [Step.emit (fun _ => Output.response (req.success ResponseBody.Disconnect))]

/-- src/command_handler.rs: `handle_unsupported` — a hand-built failure
response naming the unhandled command. -/
def handle_unsupported (req : Request) (tag : String) : List Step :=
  [Step.emit (fun _ => Output.response
    { request_seq := req.seq
      success := false
      message := some (ResponseMessage.Error ("Unsupported command: " ++ tag))
      body := none
      error := none })]

/-- src/command_handler.rs: the router `handle` — dispatch on the command
tag to exactly one handler script. -/
def handleScript (req : Request) : List Step :=
  match req.command with
  | Command.Initialize => handle_initialize req
  | Command.Launch args => handle_launch req args
  | Command.Restart => handle_restart req
  | Command.Attach => handle_attach req
  | Command.ConfigurationDone => handle_configuration_done req
  | Command.SetBreakpoints args => handle_set_breakpoints req args
  | Command.SetExceptionBreakpoints => handle_set_exception_breakpoints req
  | Command.Threads => handle_threads req
  | Command.Pause => handle_pause req
  | Command.Continue => handle_continue req
  | Command.StackTrace => handle_stack_trace req
  | Command.Scopes => handle_scopes req
  | Command.Variables => handle_variables req
  | Command.Disconnect => handle_disconnect req
  | Command.Other tag => handle_unsupported req tag

/-- The success-path behaviour of `handle`: final state and outputs when no
transport write fails. -/
def handle (req : Request) (st : DapState) : DapState × List Output :=
  let r := runScript (handleScript req) st none
  (r.1, r.2.1)

/-- State transition of one fully-serviced request. -/
def stepState (st : DapState) (req : Request) : DapState :=
  (handle req st).1

/-- State after servicing a whole request trace, in order. -/
def runTrace (st : DapState) : List Request → DapState
  | [] => st
  | req :: rest => runTrace (stepState st req) rest

/-!
The earlier draft variant: the inline handler match of src/main.rs.  It keeps
no session state, answers `Initialize` with `Capabilities::default()` (every
flag unset), handles `Launch`, `Attach` and `SetBreakpoints`, and lets the
catch-all arm answer any other command with a generic success response
carrying a `Launch` body.
-/

/-- src/main.rs lines 37-92: the per-request match of the draft loop. -/
def mainRsHandler (req : Request) : List Step :=
  match req.command with
  | Command.Initialize =>
    [ Step.emit (fun _ => Output.response (req.success
        (ResponseBody.Initialize {})))
    , Step.emit (fun _ => Output.event EventOut.Initialized) ]
  | Command.Launch _ =>
    [Step.emit (fun _ => Output.response (req.success ResponseBody.Launch))]
  | Command.Attach =>
    [Step.emit (fun _ => Output.response (req.success ResponseBody.Attach))]
  | Command.SetBreakpoints args =>
    [Step.emit (fun _ => Output.response (req.success
      (ResponseBody.SetBreakpoints (buildBreakpoints args.source args.breakpoints))))]
  | _ =>
    [Step.emit (fun _ => Output.response (req.success ResponseBody.Launch))]

/-- Servicing one request in the src/main.rs loop (the draft keeps no session
state, so the script runs on the fresh default state).  Returns the outputs
actually delivered and whether a `?` fired on a write.  Note the match arms
are plain blocks, not closures, so such an `Err` propagates out of `main`
itself rather than into the `result` binding. -/
def mainRsProcess (req : Request) (failAt : Option Nat) : List Output × Bool :=
  let r := runScript (mainRsHandler req) DapState.new failAt
  (r.2.1, r.2.2)

/-- src/main.rs lines 23-101: the main loop.  Each iteration takes one
request (paired here with the injected index of a failing transport write,
if any) and services it.  Because the `?` operators inside the match arms
return from `main` itself, the first failing write terminates the whole
process with `Err`: the `result` binding is always `Ok`, and the
`if let Err(e) = result` logging after the match can never fire.  Returns
the per-request outputs delivered before termination, paired with whether
the process died with `Err` (rather than draining the queue and exiting
cleanly). -/
def mainLoop : List (Request × Option Nat) → List (List Output) × Bool
  | [] => ([], false)
  | (req, failAt) :: rest =>
    let r := mainRsProcess req failAt
    if r.2 then ([r.1], true)
    else
      let t := mainLoop rest
      (r.1 :: t.1, t.2)

/-!  Helper lemmas about the runner, the breakpoint-list builder and the
state transitions.  -/

/-- A run with no injected failure never reports an error. -/
theorem runScript_none_ok (s : List Step) (st : DapState) :
    (runScript s st none).2.2 = false := by
  induction s generalizing st with
  | nil => rfl
  | cons step rest ih =>
    cases step with
    | mutate f => simpa [runScript] using ih (f st)
    | emit f => simp [runScript, ih st]

/-- The success path delivers one output per emission of the script. -/
theorem runScript_none_length (s : List Step) (st : DapState) :
    (runScript s st none).2.1.length = emitCount s := by
  induction s generalizing st with
  | nil => rfl
  | cons step rest ih =>
    cases step with
    | mutate f => simpa [runScript, emitCount] using ih (f st)
    | emit f => simp [runScript, emitCount, ih st]

set_option maxRecDepth 4000 in
/-- A failure injected at emission `k < emitCount s` makes the run report an
error, and exactly the first `k` success-path outputs were delivered before
the failing write. -/
theorem runScript_fail (s : List Step) : ∀ (st : DapState) (k : Nat),
    k < emitCount s →
    (runScript s st (some k)).2.2 = true ∧
    (runScript s st (some k)).2.1 = (runScript s st none).2.1.take k := by
  induction s with
  | nil => intro st k h; simp [emitCount] at h
  | cons step rest ih =>
    cases step with
    | mutate f =>
      intro st k h
      simpa [runScript, emitCount] using ih (f st) k (by simpa [emitCount] using h)
    | emit f =>
      intro st k h
      cases k with
      | zero => simp [runScript]
      | succ k =>
        have h2 : k < emitCount rest := by
          have := Nat.lt_of_succ_lt_succ (by simpa [emitCount] using h)
          exact this
        have := ih st k h2
        simp [runScript, this.1, this.2]

/-- A failure injected past the script's emissions never fires: the run is
the success-path run. -/
theorem runScript_fail_ge (s : List Step) : ∀ (st : DapState) (k : Nat),
    emitCount s ≤ k → runScript s st (some k) = runScript s st none := by
  induction s with
  | nil => intro st k _; rfl
  | cons step rest ih =>
    cases step with
    | mutate f =>
      intro st k h
      simpa [runScript] using ih (f st) k (by simpa [emitCount] using h)
    | emit f =>
      intro st k h
      cases k with
      | zero => simp [emitCount] at h
      | succ k =>
        have h2 : emitCount rest ≤ k := by
          have := Nat.le_of_succ_le_succ (by simpa [emitCount] using h)
          exact this
        simp [runScript, ih st k h2]

/-- Length of the built response list. -/
theorem buildBreakpointsFrom_length (source : Source) (sbs : List SourceBreakpoint) :
    ∀ i, (buildBreakpointsFrom source i sbs).length = sbs.length := by
  induction sbs with
  | nil => intro i; rfl
  | cons bp rest ih => intro i; simp [buildBreakpointsFrom, ih]

/-- Positional content of the built response list: the entry at index `j`
is the loop body applied to spec `j` with running index `i + j`. -/
theorem buildBreakpointsFrom_getElem (source : Source) (sbs : List SourceBreakpoint) :
    ∀ i j, (buildBreakpointsFrom source i sbs)[j]? =
      (sbs[j]?).map (mkBreakpoint source (i + j)) := by
  induction sbs with
  | nil => intro i j; simp [buildBreakpointsFrom]
  | cons bp rest ih =>
    intro i j
    cases j with
    | zero => simp [buildBreakpointsFrom]
    | succ j =>
      have h := ih (i + 1) j
      have harith : i + 1 + j = i + (j + 1) := by omega
      simp only [buildBreakpointsFrom, List.getElem?_cons_succ]
      rw [h, harith]

/-- Lemma: `pick_stop_location` touches only the stop location: thread id, source,
registry and variable handle are preserved. -/
theorem pick_stop_location_frame (st : DapState) :
    (st.pick_stop_location).main_thread_id = st.main_thread_id ∧
    (st.pick_stop_location).current_source = st.current_source ∧
    (st.pick_stop_location).breakpoints_by_path = st.breakpoints_by_path ∧
    (st.pick_stop_location).vars_ref = st.vars_ref := by
  unfold DapState.pick_stop_location
  repeat' split
  all_goals simp

/-- Recomputing the stop location is idempotent: the recomputation depends
only on `current_source` and the registry, both of which it preserves. -/
theorem pick_stop_location_idem (st : DapState) :
    (st.pick_stop_location).pick_stop_location = st.pick_stop_location := by
  cases hs : st.current_source with
  | none => simp [DapState.pick_stop_location, hs]
  | some src =>
    cases hp : src.path with
    | none => simp [DapState.pick_stop_location, hs, hp]
    | some p =>
      cases hm : st.breakpoints_by_path p with
      | none => simp [DapState.pick_stop_location, hs, hp, hm]
      | some lines =>
        cases lines with
        | nil => simp [DapState.pick_stop_location, hs, hp, hm]
        | cons first rest => simp [DapState.pick_stop_location, hs, hp, hm]

/-- What one request does to the registry entry of a fixed path `p`,
extracted from the handler scripts: only `SetBreakpoints` whose source
carries path `p` replaces the entry; everything else leaves it alone. -/
def registryStep (p : String) (acc : Option (List Int)) (req : Request) :
    Option (List Int) :=
  match req.command with
  | Command.SetBreakpoints args =>
    if args.source.path = some p then some (linesOf args.breakpoints) else acc
  | _ => acc

/-- The registry content the specification predicts for path `p` after a
request trace: the line list of the most recent `SetBreakpoints` whose
source carries `p` (absent specs count as the empty list), or nothing if
there was no such call. -/
def specRegistry (p : String) (reqs : List Request) : Option (List Int) :=
  reqs.foldl (registryStep p) none

/-- Per-request registry effect: servicing any single request transforms the
stored entry of every path exactly by `registryStep`. -/
theorem stepState_registry (st : DapState) (req : Request) (p : String) :
    (stepState st req).breakpoints_by_path p =
      registryStep p (st.breakpoints_by_path p) req := by
  cases hc : req.command with
  | SetBreakpoints args =>
    cases hp : args.source.path with
    | none =>
      simp [stepState, handle, handleScript, hc, handle_set_breakpoints, runScript,
        registryStep, hp]
    | some q =>
      by_cases hq : p = q
      · subst hq
        simp [stepState, handle, handleScript, hc, handle_set_breakpoints, runScript,
          registryStep, hp, mapInsert]
      · have : ¬ (some q = some p) := by simpa [eq_comm] using hq
        simp [stepState, handle, handleScript, hc, handle_set_breakpoints, runScript,
          registryStep, hp, mapInsert, hq, this]
  | Pause =>
    have := (pick_stop_location_frame st).2.2.1
    simp [stepState, handle, handleScript, hc, handle_pause, runScript, registryStep, this]
  | Initialize => simp [stepState, handle, handleScript, hc, handle_initialize, runScript, registryStep]
  | Launch args => simp [stepState, handle, handleScript, hc, handle_launch, runScript, registryStep]
  | Restart => simp [stepState, handle, handleScript, hc, handle_restart, runScript, registryStep]
  | Attach => simp [stepState, handle, handleScript, hc, handle_attach, runScript, registryStep]
  | ConfigurationDone => simp [stepState, handle, handleScript, hc, handle_configuration_done, runScript, registryStep]
  | SetExceptionBreakpoints => simp [stepState, handle, handleScript, hc, handle_set_exception_breakpoints, runScript, registryStep]
  | Threads => simp [stepState, handle, handleScript, hc, handle_threads, runScript, registryStep]
  | Continue => simp [stepState, handle, handleScript, hc, handle_continue, runScript, registryStep]
  | StackTrace => simp [stepState, handle, handleScript, hc, handle_stack_trace, runScript, registryStep]
  | Scopes => simp [stepState, handle, handleScript, hc, handle_scopes, runScript, registryStep]
  | Variables => simp [stepState, handle, handleScript, hc, handle_variables, runScript, registryStep]
  | Disconnect => simp [stepState, handle, handleScript, hc, handle_disconnect, runScript, registryStep]
  | Other tag => simp [stepState, handle, handleScript, hc, handle_unsupported, runScript, registryStep]

/-- Trace-level registry invariant, generalized over the starting state. -/
theorem runTrace_registry (reqs : List Request) : ∀ (st : DapState) (p : String),
    (runTrace st reqs).breakpoints_by_path p =
      reqs.foldl (registryStep p) (st.breakpoints_by_path p) := by
  induction reqs with
  | nil => intro st p; rfl
  | cons req rest ih =>
    intro st p
    show (runTrace (stepState st req) rest).breakpoints_by_path p = _
    rw [ih (stepState st req) p, stepState_registry]
    rfl

/-- Commands other than `SetBreakpoints` never touch `current_source` or the
registry. -/
theorem stepState_preserves (st : DapState) (req : Request)
    (h : ∀ args, req.command ≠ Command.SetBreakpoints args) :
    (stepState st req).current_source = st.current_source ∧
    (stepState st req).breakpoints_by_path = st.breakpoints_by_path := by
  cases hc : req.command with
  | SetBreakpoints args => exact absurd hc (h args)
  | Pause =>
    have hf := pick_stop_location_frame st
    constructor
    · simpa [stepState, handle, handleScript, hc, handle_pause, runScript] using hf.2.1
    · simpa [stepState, handle, handleScript, hc, handle_pause, runScript] using hf.2.2.1
  | Initialize => simp [stepState, handle, handleScript, hc, handle_initialize, runScript]
  | Launch args => simp [stepState, handle, handleScript, hc, handle_launch, runScript]
  | Restart => simp [stepState, handle, handleScript, hc, handle_restart, runScript]
  | Attach => simp [stepState, handle, handleScript, hc, handle_attach, runScript]
  | ConfigurationDone => simp [stepState, handle, handleScript, hc, handle_configuration_done, runScript]
  | SetExceptionBreakpoints => simp [stepState, handle, handleScript, hc, handle_set_exception_breakpoints, runScript]
  | Threads => simp [stepState, handle, handleScript, hc, handle_threads, runScript]
  | Continue => simp [stepState, handle, handleScript, hc, handle_continue, runScript]
  | StackTrace => simp [stepState, handle, handleScript, hc, handle_stack_trace, runScript]
  | Scopes => simp [stepState, handle, handleScript, hc, handle_scopes, runScript]
  | Variables => simp [stepState, handle, handleScript, hc, handle_variables, runScript]
  | Disconnect => simp [stepState, handle, handleScript, hc, handle_disconnect, runScript]
  | Other tag => simp [stepState, handle, handleScript, hc, handle_unsupported, runScript]

/-- Trace-level version of `stepState_preserves`. -/
theorem runTrace_preserves (reqs : List Request) : ∀ (st : DapState),
    (∀ req ∈ reqs, ∀ args, req.command ≠ Command.SetBreakpoints args) →
    (runTrace st reqs).current_source = st.current_source ∧
    (runTrace st reqs).breakpoints_by_path = st.breakpoints_by_path := by
  induction reqs with
  | nil => intro st _; exact ⟨rfl, rfl⟩
  | cons req rest ih =>
    intro st h
    have hstep := stepState_preserves st req (h req (by simp))
    have hrest := ih (stepState st req) (fun r hr => h r (by simp [hr]))
    show (runTrace (stepState st req) rest).current_source = _ ∧
      (runTrace (stepState st req) rest).breakpoints_by_path = _
    rw [hrest.1, hrest.2, hstep.1, hstep.2]
    exact ⟨rfl, rfl⟩

/-!  The specification claims.  -/

/-- C1: a `SetBreakpoints` request with N submitted specs yields exactly one
emission — a success response, no event — whose breakpoint list has exactly
N entries in submitted order; the entry at 0-based index `i` has
`id = i + 1`, `verified = true`, the request's source, and the requested
line and column of spec `i`. -/
theorem setBreakpoints_response_contract (st : DapState) (seq : Int)
    (args : SetBreakpointsArguments) :
    (handle { seq := seq, command := Command.SetBreakpoints args } st).2 =
      [Output.response
        { request_seq := seq, success := true, message := none,
          body := some (ResponseBody.SetBreakpoints
            (buildBreakpoints args.source args.breakpoints)),
          error := none }] ∧
    (buildBreakpoints args.source args.breakpoints).length =
      (args.breakpoints.getD []).length ∧
    (∀ i, i < (args.breakpoints.getD []).length →
      ∃ sbp, (args.breakpoints.getD [])[i]? = some sbp ∧
        (buildBreakpoints args.source args.breakpoints)[i]? = some
          { id := some ((i : Int) + 1), verified := true, message := none,
            source := some args.source, line := some sbp.line,
            column := sbp.column, end_line := none, end_column := none,
            instruction_reference := none, offset := none }) := by
  refine ⟨?_, ?_, ?_⟩
  · simp [handle, handleScript, handle_set_breakpoints, runScript, Request.success]
  · cases args.breakpoints with
    | none => rfl
    | some sbs =>
      simpa [buildBreakpoints] using buildBreakpointsFrom_length args.source sbs 0
  · intro i hi
    cases hb : args.breakpoints with
    | none => simp [hb] at hi
    | some sbs =>
      rw [hb] at hi
      simp only [Option.getD] at hi
      refine ⟨sbs[i], ?_, ?_⟩
      · simp [hb, List.getElem?_eq_getElem hi]
      · have := buildBreakpointsFrom_getElem args.source sbs 0 i
        rw [List.getElem?_eq_getElem hi] at this
        simpa [buildBreakpoints, hb, mkBreakpoint] using this

/-- C1 witness: the contract evaluated on a concrete two-spec request. -/
theorem setBreakpoints_response_contract_witness :
    0 < ((some [({ line := 10, column := some 3 }), ({ line := 20, column := none })] :
        Option (List SourceBreakpoint)).getD []).length ∧
    ∃ sbp, ((some [({ line := 10, column := some 3 }), ({ line := 20, column := none })] :
        Option (List SourceBreakpoint)).getD [])[0]? = some sbp ∧
      (buildBreakpoints { name := none, path := some "/a.rs" }
        (some [{ line := 10, column := some 3 }, { line := 20, column := none }]))[0]? = some
          { id := some ((0 : Int) + 1), verified := true, message := none,
            source := some { name := none, path := some "/a.rs" },
            line := some sbp.line, column := sbp.column,
            end_line := none, end_column := none,
            instruction_reference := none, offset := none } :=
  ⟨by decide,
    (setBreakpoints_response_contract DapState.new 7
      { source := { name := none, path := some "/a.rs" },
        breakpoints := some [{ line := 10, column := some 3 }, { line := 20, column := none }] }).2.2
      0 (by decide)⟩

/-- C2: in every session state reachable from the initial state, the
registry entry of any path is exactly the line list of the most recent
`SetBreakpoints` call whose source carried that path (an absent spec list
stores the empty vector, via `linesOf`), with no accumulation from earlier
calls and no effect from calls for other paths. -/
theorem registry_latest_wins (reqs : List Request) (p : String) :
    (runTrace DapState.new reqs).breakpoints_by_path p = specRegistry p reqs := by
  simpa [specRegistry, DapState.new] using runTrace_registry reqs DapState.new p

/-- C4: `Initialize` emits exactly one success response carrying the
capability set — configuration-done support `true`, every other declared
flag `false` — and then the `Initialized` event, strictly after the
response; the handler never fails, never omits either emission, and leaves
the session state untouched. -/
theorem initialize_contract (st : DapState) (seq : Int) :
    (handle { seq := seq, command := Command.Initialize } st).2 =
      [Output.response
        { request_seq := seq, success := true, message := none,
          body := some (ResponseBody.Initialize initializeCaps), error := none },
       Output.event EventOut.Initialized] ∧
    (handle { seq := seq, command := Command.Initialize } st).1 = st ∧
    initializeCaps.supports_configuration_done_request = some true ∧
    initializeCaps.supports_set_variable = some false ∧
    initializeCaps.supports_step_back = some false ∧
    initializeCaps.supports_restart_frame = some false ∧
    initializeCaps.supports_goto_targets_request = some false ∧
    initializeCaps.supports_conditional_breakpoints = some false ∧
    initializeCaps.supports_hit_conditional_breakpoints = some false ∧
    initializeCaps.supports_terminate_request = some false ∧
    initializeCaps.supports_evaluate_for_hovers = some false := by
  exact ⟨rfl, rfl, rfl, rfl, rfl, rfl, rfl, rfl, rfl, rfl, rfl⟩

/-- C8: `Continue` emits a success response declaring
`all_threads_continued = true`, then a `Continued` event with the main
thread id and the same flag; neither `Continue` nor `Disconnect` mutates
any field of the session state. -/
theorem continue_disconnect_frame (st : DapState) (seq seq2 : Int) :
    (handle { seq := seq, command := Command.Continue } st).2 =
      [Output.response
        { request_seq := seq, success := true, message := none,
          body := some (ResponseBody.Continue { all_threads_continued := some true }),
          error := none },
       Output.event (EventOut.Continued
         { thread_id := st.main_thread_id, all_threads_continued := some true })] ∧
    (handle { seq := seq, command := Command.Continue } st).1 = st ∧
    (handle { seq := seq2, command := Command.Disconnect } st).2 =
      [Output.response
        { request_seq := seq2, success := true, message := none,
          body := some ResponseBody.Disconnect, error := none }] ∧
    (handle { seq := seq2, command := Command.Disconnect } st).1 = st := by
  exact ⟨rfl, rfl, rfl, rfl⟩

/-- Breakpoint specs at lines 10 and 20 of "/a.rs" (first spec scenario). -/
def scenarioArgsA : SetBreakpointsArguments :=
  { source := { name := none, path := some "/a.rs" },
    breakpoints := some [{ line := 10, column := none }, { line := 20, column := none }] }

/-- An empty breakpoint list for "/a.rs" (second spec scenario). -/
def scenarioArgsB : SetBreakpointsArguments :=
  { source := { name := none, path := some "/a.rs" }, breakpoints := some [] }

/-- The specification's first `Pause` scenario: set breakpoints at lines 10
and 20 of "/a.rs", then pause. -/
def scenarioTraceA : List Request :=
  [ { seq := 1, command := Command.SetBreakpoints scenarioArgsA },
    { seq := 2, command := Command.Pause } ]

/-- The specification's second `Pause` scenario: clear the breakpoints of
"/a.rs" (empty list), then pause. -/
def scenarioTraceB : List Request :=
  [ { seq := 1, command := Command.SetBreakpoints scenarioArgsB },
    { seq := 2, command := Command.Pause } ]

/-- C3: `Pause` emits a success response followed by the `Stopped` event
(reason pause, main thread id, all threads stopped) and recomputes the stop
location before the event: a non-empty registry entry for the current
source's path yields (first line, 1), anything else resets to (1, 1); the
recomputation is idempotent, and the two concrete spec scenarios hold:
after `SetBreakpoints("/a.rs", [10, 20])` then `Pause`, `StackTrace`
reports line 10; after `SetBreakpoints("/a.rs", [])` then `Pause` it
reports line 1. -/
theorem pause_contract (st : DapState) (seq : Int) :
    (handle { seq := seq, command := Command.Pause } st).2 =
      [Output.response
        { request_seq := seq, success := true, message := none,
          body := some ResponseBody.Pause, error := none },
       Output.event (EventOut.Stopped
         { reason := StoppedEventReason.Pause, description := some "Paused",
           thread_id := some st.main_thread_id, preserve_focus_hint := some false,
           text := none, all_threads_stopped := some true,
           hit_breakpoint_ids := none })] ∧
    (handle { seq := seq, command := Command.Pause } st).1 = st.pick_stop_location ∧
    (∀ src p first rest, st.current_source = some src → src.path = some p →
      st.breakpoints_by_path p = some (first :: rest) →
      (st.pick_stop_location).stopped_line = first ∧
      (st.pick_stop_location).stopped_column = 1) ∧
    ((∀ src p first rest, ¬(st.current_source = some src ∧ src.path = some p ∧
        st.breakpoints_by_path p = some (first :: rest))) →
      (st.pick_stop_location).stopped_line = 1 ∧
      (st.pick_stop_location).stopped_column = 1) ∧
    (st.pick_stop_location).pick_stop_location = st.pick_stop_location ∧
    (handle { seq := 3, command := Command.StackTrace }
      (runTrace DapState.new scenarioTraceA)).2 =
      [Output.response
        { request_seq := 3, success := true, message := none,
          body := some (ResponseBody.StackTrace
            [{ id := 1, name := "main",
               source := some { name := none, path := some "/a.rs" },
               line := 10, column := 1, end_line := none, end_column := none,
               can_restart := none, instruction_pointer_reference := none,
               module_id := none, presentation_hint := none }] (some 1)),
          error := none }] ∧
    (handle { seq := 3, command := Command.StackTrace }
      (runTrace DapState.new scenarioTraceB)).2 =
      [Output.response
        { request_seq := 3, success := true, message := none,
          body := some (ResponseBody.StackTrace
            [{ id := 1, name := "main",
               source := some { name := none, path := some "/a.rs" },
               line := 1, column := 1, end_line := none, end_column := none,
               can_restart := none, instruction_pointer_reference := none,
               module_id := none, presentation_hint := none }] (some 1)),
          error := none }] := by
  refine ⟨?_, ?_, ?_, ?_, pick_stop_location_idem st, by decide, by decide⟩
  · simp [handle, handleScript, handle_pause, runScript, Request.success,
      (pick_stop_location_frame st).1]
  · simp [handle, handleScript, handle_pause, runScript]
  · intro src p first rest hs hp hm
    simp [DapState.pick_stop_location, hs, hp, hm]
  · intro hnone
    cases hs : st.current_source with
    | none => simp [DapState.pick_stop_location, hs]
    | some src =>
      cases hp : src.path with
      | none => simp [DapState.pick_stop_location, hs, hp]
      | some p =>
        cases hm : st.breakpoints_by_path p with
        | none => simp [DapState.pick_stop_location, hs, hp, hm]
        | some lines =>
          cases lines with
          | nil => simp [DapState.pick_stop_location, hs, hp, hm]
          | cons first rest =>
            exact absurd ⟨hs, hp, hm⟩ (hnone src p first rest)

/-- C3 witness: the conditional parts evaluated on a concrete state whose
current source "/b.rs" has the registered non-empty line list [42]. -/
theorem pause_contract_witness :
    ({ main_thread_id := 1, current_source := some { name := none, path := some "/b.rs" },
       stopped_line := 1, stopped_column := 1,
       breakpoints_by_path := mapInsert (fun _ => none) "/b.rs" [42],
       vars_ref := 2000 } : DapState).current_source =
        some { name := none, path := some "/b.rs" } ∧
    (({ main_thread_id := 1, current_source := some { name := none, path := some "/b.rs" },
        stopped_line := 1, stopped_column := 1,
        breakpoints_by_path := mapInsert (fun _ => none) "/b.rs" [42],
        vars_ref := 2000 } : DapState).pick_stop_location).stopped_line = 42 :=
  ⟨rfl,
    ((pause_contract
      { main_thread_id := 1, current_source := some { name := none, path := some "/b.rs" },
        stopped_line := 1, stopped_column := 1,
        breakpoints_by_path := mapInsert (fun _ => none) "/b.rs" [42],
        vars_ref := 2000 } 5).2.2.1
      { name := none, path := some "/b.rs" } "/b.rs" 42 [] rfl rfl (by decide)).1⟩

/-- C5: on a command outside the supported set, the full handler variant
(src/command_handler.rs) emits exactly one failure response whose message
names the unhandled command, while the draft variant (src/main.rs) instead
emits a generic success response with a `Launch` body; every command gets a
terminating response carrying its sequence number in both variants, but the
two variants disagree on unsupported commands. -/
theorem unsupported_command_refinement :
    (∀ (st : DapState) (seq : Int) (tag : String),
      (handle { seq := seq, command := Command.Other tag } st).2 =
        [Output.response
          { request_seq := seq, success := false,
            message := some (ResponseMessage.Error ("Unsupported command: " ++ tag)),
            body := none, error := none }] ∧
      (mainRsProcess { seq := seq, command := Command.Other tag } none).1 =
        [Output.response
          { request_seq := seq, success := true, message := none,
            body := some ResponseBody.Launch, error := none }] ∧
      (handle { seq := seq, command := Command.Other tag } st).2 ≠
        (mainRsProcess { seq := seq, command := Command.Other tag } none).1) ∧
    (∀ (req : Request) (st : DapState),
      ∃ r, Output.response r ∈ (handle req st).2 ∧ r.request_seq = req.seq) ∧
    (∀ (req : Request),
      ∃ r, Output.response r ∈ (mainRsProcess req none).1 ∧ r.request_seq = req.seq) := by
  refine ⟨?_, ?_, ?_⟩
  · intro st seq tag
    refine ⟨rfl, rfl, ?_⟩
    simp [handle, handleScript, handle_unsupported, runScript, mainRsProcess,
      mainRsHandler, Request.success]
  · intro req st
    cases hc : req.command with
    | Initialize =>
      exact ⟨req.success (ResponseBody.Initialize initializeCaps),
        by simp [handle, handleScript, hc, handle_initialize, runScript], rfl⟩
    | Launch args =>
      exact ⟨req.success ResponseBody.Launch,
        by simp [handle, handleScript, hc, handle_launch, runScript], rfl⟩
    | Restart =>
      exact ⟨req.success ResponseBody.Restart,
        by simp [handle, handleScript, hc, handle_restart, runScript], rfl⟩
    | Attach =>
      exact ⟨req.success ResponseBody.Attach,
        by simp [handle, handleScript, hc, handle_attach, runScript], rfl⟩
    | ConfigurationDone =>
      exact ⟨req.success ResponseBody.ConfigurationDone,
        by simp [handle, handleScript, hc, handle_configuration_done, runScript], rfl⟩
    | SetBreakpoints args =>
      exact ⟨req.success (ResponseBody.SetBreakpoints
          (buildBreakpoints args.source args.breakpoints)),
        by simp [handle, handleScript, hc, handle_set_breakpoints, runScript], rfl⟩
    | SetExceptionBreakpoints =>
      exact ⟨req.success ResponseBody.SetExceptionBreakpoints,
        by simp [handle, handleScript, hc, handle_set_exception_breakpoints, runScript], rfl⟩
    | Threads =>
      exact ⟨req.success (ResponseBody.Threads [{ id := st.main_thread_id, name := "Main Thread" }]),
        by simp [handle, handleScript, hc, handle_threads, runScript], rfl⟩
    | Pause =>
      exact ⟨req.success ResponseBody.Pause,
        by simp [handle, handleScript, hc, handle_pause, runScript], rfl⟩
    | Continue =>
      exact ⟨req.success (ResponseBody.Continue { all_threads_continued := some true }),
        by simp [handle, handleScript, hc, handle_continue, runScript], rfl⟩
    | StackTrace =>
      exact ⟨req.success (ResponseBody.StackTrace
          [{ id := 1, name := "main",
             source := some (st.current_source.getD unknownSource),
             line := st.stopped_line, column := st.stopped_column,
             end_line := none, end_column := none, can_restart := none,
             instruction_pointer_reference := none, module_id := none,
             presentation_hint := none }] (some 1)),
        by simp [handle, handleScript, hc, handle_stack_trace, runScript], rfl⟩
    | Scopes =>
      exact ⟨req.success (ResponseBody.Scopes
          [{ name := "Locals", presentation_hint := none,
             variables_reference := st.vars_ref, named_variables := none,
             indexed_variables := none, expensive := false, source := none,
             line := none, column := none, end_line := none, end_column := none }]),
        by simp [handle, handleScript, hc, handle_scopes, runScript], rfl⟩
    | Variables =>
      exact ⟨req.success (ResponseBody.Variables
          [{ name := "demo", value := "1", type_field := some "i32",
             presentation_hint := none, evaluate_name := some "demo",
             variables_reference := 0, named_variables := none,
             indexed_variables := none, memory_reference := none }]),
        by simp [handle, handleScript, hc, handle_variables, runScript], rfl⟩
    | Disconnect =>
      exact ⟨req.success ResponseBody.Disconnect,
        by simp [handle, handleScript, hc, handle_disconnect, runScript], rfl⟩
    | Other tag =>
      exact ⟨{ request_seq := req.seq, success := false,
               message := some (ResponseMessage.Error ("Unsupported command: " ++ tag)),
               body := none, error := none },
        by simp [handle, handleScript, hc, handle_unsupported, runScript], rfl⟩
  · intro req
    cases hc : req.command with
    | Initialize =>
      exact ⟨req.success (ResponseBody.Initialize {}),
        by simp [mainRsProcess, mainRsHandler, hc, runScript], rfl⟩
    | Launch args =>
      exact ⟨req.success ResponseBody.Launch,
        by simp [mainRsProcess, mainRsHandler, hc, runScript], rfl⟩
    | Attach =>
      exact ⟨req.success ResponseBody.Attach,
        by simp [mainRsProcess, mainRsHandler, hc, runScript], rfl⟩
    | SetBreakpoints args =>
      exact ⟨req.success (ResponseBody.SetBreakpoints
          (buildBreakpoints args.source args.breakpoints)),
        by simp [mainRsProcess, mainRsHandler, hc, runScript], rfl⟩
    | Restart =>
      exact ⟨req.success ResponseBody.Launch,
        by simp [mainRsProcess, mainRsHandler, hc, runScript], rfl⟩
    | ConfigurationDone =>
      exact ⟨req.success ResponseBody.Launch,
        by simp [mainRsProcess, mainRsHandler, hc, runScript], rfl⟩
    | SetExceptionBreakpoints =>
      exact ⟨req.success ResponseBody.Launch,
        by simp [mainRsProcess, mainRsHandler, hc, runScript], rfl⟩
    | Threads =>
      exact ⟨req.success ResponseBody.Launch,
        by simp [mainRsProcess, mainRsHandler, hc, runScript], rfl⟩
    | Pause =>
      exact ⟨req.success ResponseBody.Launch,
        by simp [mainRsProcess, mainRsHandler, hc, runScript], rfl⟩
    | Continue =>
      exact ⟨req.success ResponseBody.Launch,
        by simp [mainRsProcess, mainRsHandler, hc, runScript], rfl⟩
    | StackTrace =>
      exact ⟨req.success ResponseBody.Launch,
        by simp [mainRsProcess, mainRsHandler, hc, runScript], rfl⟩
    | Scopes =>
      exact ⟨req.success ResponseBody.Launch,
        by simp [mainRsProcess, mainRsHandler, hc, runScript], rfl⟩
    | Variables =>
      exact ⟨req.success ResponseBody.Launch,
        by simp [mainRsProcess, mainRsHandler, hc, runScript], rfl⟩
    | Disconnect =>
      exact ⟨req.success ResponseBody.Launch,
        by simp [mainRsProcess, mainRsHandler, hc, runScript], rfl⟩
    | Other tag =>
      exact ⟨req.success ResponseBody.Launch,
        by simp [mainRsProcess, mainRsHandler, hc, runScript], rfl⟩

/-- C5 witness: the two variants' answers to the unsupported command tagged
"Next" differ. -/
theorem unsupported_command_refinement_witness :
    (handle { seq := 9, command := Command.Other "Next" } DapState.new).2 ≠
      (mainRsProcess { seq := 9, command := Command.Other "Next" } none).1 :=
  (unsupported_command_refinement.1 DapState.new 9 "Next").2.2

/-- C10: a `SetBreakpoints` request whose source has no path still replaces
`current_source` but leaves the registry untouched; as long as no further
`SetBreakpoints` arrives, every subsequent `Pause` resets the stop location
to (1, 1) — no matter which non-empty line lists are still registered for
paths set earlier. -/
theorem pathless_setBreakpoints_resets_pause (st : DapState) (seq : Int)
    (src : Source) (hpath : src.path = none) (obps : Option (List SourceBreakpoint)) :
    (stepState st { seq := seq, command := Command.SetBreakpoints { source := src, breakpoints := obps } }).current_source = some src ∧
    (stepState st { seq := seq, command := Command.SetBreakpoints { source := src, breakpoints := obps } }).breakpoints_by_path = st.breakpoints_by_path ∧
    (∀ (t : List Request), (∀ r ∈ t, ∀ args, r.command ≠ Command.SetBreakpoints args) →
      ∀ seq2 : Int,
        (stepState (runTrace (stepState st { seq := seq, command := Command.SetBreakpoints { source := src, breakpoints := obps } }) t)
          { seq := seq2, command := Command.Pause }).stopped_line = 1 ∧
        (stepState (runTrace (stepState st { seq := seq, command := Command.SetBreakpoints { source := src, breakpoints := obps } }) t)
          { seq := seq2, command := Command.Pause }).stopped_column = 1) := by
  have hsrc : (stepState st { seq := seq, command := Command.SetBreakpoints { source := src, breakpoints := obps } }).current_source = some src := by
    simp [stepState, handle, handleScript, handle_set_breakpoints, runScript, hpath]
  have hmap : (stepState st { seq := seq, command := Command.SetBreakpoints { source := src, breakpoints := obps } }).breakpoints_by_path = st.breakpoints_by_path := by
    simp [stepState, handle, handleScript, handle_set_breakpoints, runScript, hpath]
  refine ⟨hsrc, hmap, ?_⟩
  intro t ht seq2
  have hpres := runTrace_preserves t
    (stepState st { seq := seq, command := Command.SetBreakpoints { source := src, breakpoints := obps } }) ht
  have hsrc2 := hpres.1.trans hsrc
  have hpause : (stepState (runTrace (stepState st { seq := seq, command := Command.SetBreakpoints { source := src, breakpoints := obps } }) t)
      { seq := seq2, command := Command.Pause }) =
      (runTrace (stepState st { seq := seq, command := Command.SetBreakpoints { source := src, breakpoints := obps } }) t).pick_stop_location := by
    simp [stepState, handle, handleScript, handle_pause, runScript]
  rw [hpause]
  constructor
  · simp [DapState.pick_stop_location, hsrc2, hpath]
  · simp [DapState.pick_stop_location, hsrc2, hpath]

/-- C10 witness: after registering line 10 for "/a.rs" and then sending a
pathless source, a pause over an intervening `Threads` request stops at
(1, 1). -/
theorem pathless_setBreakpoints_resets_pause_witness :
    (({ name := some "untitled", path := none } : Source).path = none) ∧
    (stepState (runTrace (stepState (runTrace DapState.new scenarioTraceA)
        { seq := 4, command := Command.SetBreakpoints { source := { name := some "untitled", path := none }, breakpoints := some [{ line := 77, column := none }] } })
        [{ seq := 5, command := Command.Threads }])
      { seq := 6, command := Command.Pause }).stopped_line = 1 :=
  ⟨rfl,
    ((pathless_setBreakpoints_resets_pause (runTrace DapState.new scenarioTraceA) 4
        { name := some "untitled", path := none } rfl
        (some [{ line := 77, column := none }])).2.2
      [{ seq := 5, command := Command.Threads }]
      (by intro r hr args; simp at hr; simp [hr]) 6).1⟩

/-- C9: `SetBreakpoints` validates nothing: every submitted line (zero and
negative included) is echoed back verified with its line and positional id,
stored verbatim in the registry, and — being the first line of the current
source's path — becomes `stopped_line` on the next `Pause`. -/
theorem setBreakpoints_accepts_any_line (st : DapState) (seq seq2 : Int)
    (sname : Option String) (p : String) (specs : List SourceBreakpoint)
    (h : specs ≠ []) :
    (∀ i, i < specs.length → ∃ sbp entry, specs[i]? = some sbp ∧
      (buildBreakpoints { name := sname, path := some p } (some specs))[i]? = some entry ∧
      entry.verified = true ∧ entry.line = some sbp.line ∧
      entry.id = some ((i : Int) + 1)) ∧
    (stepState st { seq := seq, command := Command.SetBreakpoints { source := { name := sname, path := some p }, breakpoints := some specs } }).breakpoints_by_path p =
      some (specs.map SourceBreakpoint.line) ∧
    (stepState (stepState st { seq := seq, command := Command.SetBreakpoints { source := { name := sname, path := some p }, breakpoints := some specs } }) { seq := seq2, command := Command.Pause }).stopped_line =
      (specs.head h).line ∧
    (stepState (stepState st { seq := seq, command := Command.SetBreakpoints { source := { name := sname, path := some p }, breakpoints := some specs } }) { seq := seq2, command := Command.Pause }).stopped_column = 1 := by
  have hmapp : (stepState st { seq := seq, command := Command.SetBreakpoints { source := { name := sname, path := some p }, breakpoints := some specs } }).breakpoints_by_path p =
      some (specs.map SourceBreakpoint.line) := by
    have := stepState_registry st { seq := seq, command := Command.SetBreakpoints { source := { name := sname, path := some p }, breakpoints := some specs } } p
    simpa [registryStep, linesOf] using this
  have hsrc : (stepState st { seq := seq, command := Command.SetBreakpoints { source := { name := sname, path := some p }, breakpoints := some specs } }).current_source =
      some { name := sname, path := some p } := by
    simp [stepState, handle, handleScript, handle_set_breakpoints, runScript]
  have hpk : stepState (stepState st { seq := seq, command := Command.SetBreakpoints { source := { name := sname, path := some p }, breakpoints := some specs } }) { seq := seq2, command := Command.Pause } =
      (stepState st { seq := seq, command := Command.SetBreakpoints { source := { name := sname, path := some p }, breakpoints := some specs } }).pick_stop_location := by
    simp [stepState, handle, handleScript, handle_pause, runScript]
  refine ⟨?_, hmapp, ?_, ?_⟩
  · intro i hi
    refine ⟨specs[i], mkBreakpoint { name := sname, path := some p } i specs[i],
      by simp [List.getElem?_eq_getElem hi], ?_, rfl, rfl, rfl⟩
    have := buildBreakpointsFrom_getElem { name := sname, path := some p } specs 0 i
    rw [List.getElem?_eq_getElem hi] at this
    simpa [buildBreakpoints] using this
  · cases specs with
    | nil => exact absurd rfl h
    | cons s rest =>
      rw [hpk]
      simp [DapState.pick_stop_location, hsrc, hmapp]
  · cases specs with
    | nil => exact absurd rfl h
    | cons s rest =>
      rw [hpk]
      simp [DapState.pick_stop_location, hsrc, hmapp]

/-- C9 witness: negative and zero line numbers pass through unvalidated;
after submitting them for "/z.rs", pausing stops at line -5. -/
theorem setBreakpoints_accepts_any_line_witness :
    ([({ line := -5, column := some 0 }), ({ line := 0, column := none })] :
      List SourceBreakpoint) ≠ [] ∧
    (stepState (stepState DapState.new { seq := 1, command := Command.SetBreakpoints { source := { name := none, path := some "/z.rs" }, breakpoints := some [{ line := -5, column := some 0 }, { line := 0, column := none }] } }) { seq := 2, command := Command.Pause }).stopped_line = -5 :=
  ⟨by decide, by
    have := (setBreakpoints_accepts_any_line DapState.new 1 2 none "/z.rs"
      [{ line := -5, column := some 0 }, { line := 0, column := none }] (by decide)).2.2.1
    simpa using this⟩

/-- C7: the launch-argument extractor is total and silent: the canonical
payload yields port 9229, and every listed shape mismatch — absent payload,
missing or non-array `args`, fewer than two elements, wrong flag text,
non-string or unparsable port — yields `none`; and `Launch` always emits
exactly one success response, whatever the payload. -/
theorem launch_port_extraction_contract :
    extract_port_from_args { additional_data := some (Json.obj [("args", Json.arr [Json.str "--port", Json.str "9229"])]) } = some 9229 ∧
    extract_port_from_args { additional_data := some (Json.obj [("args", Json.arr [Json.str "--port", Json.str "notanumber"])]) } = none ∧
    extract_port_from_args { additional_data := some (Json.obj []) } = none ∧
    extract_port_from_args { additional_data := some (Json.obj [("args", Json.arr [Json.str "--port"])]) } = none ∧
    extract_port_from_args { additional_data := none } = none ∧
    (∀ j : Json, j.get? "args" = none →
      extract_port_from_args { additional_data := some j } = none) ∧
    (∀ j v : Json, j.get? "args" = some v → v.asArray = none →
      extract_port_from_args { additional_data := some j } = none) ∧
    (∀ (j : Json) (elems : List Json), j.get? "args" = some (Json.arr elems) →
      elems.length < 2 →
      extract_port_from_args { additional_data := some j } = none) ∧
    (∀ (j a0 a1 : Json) (rest : List Json),
      j.get? "args" = some (Json.arr (a0 :: a1 :: rest)) → a0.asStr = none →
      extract_port_from_args { additional_data := some j } = none) ∧
    (∀ (j a0 a1 : Json) (rest : List Json) (s : String),
      j.get? "args" = some (Json.arr (a0 :: a1 :: rest)) → a0.asStr = some s →
      s ≠ "--port" →
      extract_port_from_args { additional_data := some j } = none) ∧
    (∀ (j a1 : Json) (rest : List Json),
      j.get? "args" = some (Json.arr (Json.str "--port" :: a1 :: rest)) →
      a1.asStr = none →
      extract_port_from_args { additional_data := some j } = none) ∧
    (∀ (j a1 : Json) (rest : List Json) (ps : String),
      j.get? "args" = some (Json.arr (Json.str "--port" :: a1 :: rest)) →
      a1.asStr = some ps → parseU16 ps = none →
      extract_port_from_args { additional_data := some j } = none) ∧
    (∀ (st : DapState) (seqn : Int) (largs : LaunchRequestArguments),
      (handle { seq := seqn, command := Command.Launch largs } st).2 =
        [Output.response { request_seq := seqn, success := true, message := none, body := some ResponseBody.Launch, error := none }] ∧
      (handle { seq := seqn, command := Command.Launch largs } st).1 = st) := by
  refine ⟨by decide, by decide, by decide, by decide, by decide, ?_, ?_, ?_, ?_, ?_, ?_, ?_, ?_⟩
  · intro j hj
    simp [extract_port_from_args, hj]
  · intro j v hj hv
    simp [extract_port_from_args, hj, hv]
  · intro j elems hj hlen
    cases elems with
    | nil => simp [extract_port_from_args, hj, Json.asArray]
    | cons a t =>
      cases t with
      | nil => simp [extract_port_from_args, hj, Json.asArray]
      | cons b t2 =>
        exfalso
        simp only [List.length_cons] at hlen
        omega
  · intro j a0 a1 rest hj ha0
    simp [extract_port_from_args, hj, Json.asArray, ha0]
  · intro j a0 a1 rest s hj ha0 hs
    simp [extract_port_from_args, hj, Json.asArray, ha0, hs]
  · intro j a1 rest hj ha1
    cases a1 <;> simp_all [extract_port_from_args, Json.asArray, Json.asStr]
  · intro j a1 rest ps hj ha1 hps
    cases a1 <;> simp_all [extract_port_from_args, Json.asArray, Json.asStr]
  · intro st seqn largs
    exact ⟨rfl, rfl⟩

/-- C7 witness: the missing-`args`-field case applied to the JSON value
`null`. -/
theorem launch_port_extraction_contract_witness :
    Json.null.get? "args" = none ∧
    extract_port_from_args { additional_data := some Json.null } = none :=
  ⟨rfl, launch_port_extraction_contract.2.2.2.2.2.1 Json.null rfl⟩

/-- C6, evaluated at the failing input: the claim (with spec §7) says a
write failure is logged and the loop continues to the next request, not
fatal to the process — but in src/main.rs the `?` operators inside the
match arms return from `main` itself (the arms are blocks, not closures),
so the first failed write terminates the process.  With two requests queued
and the first write of request 1 failing, the loop dies with `Err` having
delivered nothing, and request 2 — which a failure-free run services — is
never processed. -/
theorem write_failure_kills_process :
    mainLoop [({ seq := 1, command := Command.Initialize }, some 0),
      ({ seq := 2, command := Command.Threads }, none)] = ([[]], true) ∧
    (mainLoop [({ seq := 1, command := Command.Initialize }, none),
      ({ seq := 2, command := Command.Threads }, none)]).1.length = 2 ∧
    (mainLoop [({ seq := 1, command := Command.Initialize }, none),
      ({ seq := 2, command := Command.Threads }, none)]).2 = false := by
  exact ⟨rfl, rfl, rfl⟩

end RastDap
